import Mathlib

/-!
Verification of the photo-retention and registration/recognition logic of the
`desbloqueo_facial_linux` repository, as a shallow embedding in Lean 4.

The filesystem photo collection of a user is modelled as a `List Photo`, kept
in ascending creation-time order (this is what `get_user_photo_files` returns:
the files sorted by creation timestamp).  Timestamps are integers measured in
days, so that the comparison `photo_date < now - timedelta(days=retention)` of
`user_manager.py` becomes `p.ts < now - photoRetentionDays`.  Deleting a file
that the same pass just listed always succeeds, so the `os.path.exists` guards
of the source are identities in this model and the decremented running count
`current_total_photos` equals the length of the survivor list.
-/

namespace Desbloqueo

/-- A stored face photo: an opaque identifier (the file) and its creation
timestamp in days. -/
structure Photo where
  id : Nat
  ts : Int
deriving DecidableEq, Repr

/-- The retention configuration of `UserManager.__init__`. -/
structure RetentionPolicy where
  maxPhotosPerUser : Nat
  photoRetentionDays : Int
  minRecentPhotosToKeep : Nat
deriving DecidableEq, Repr

/-- Source predicate `is_older_than_retention` of the retention pass:
`photo_date < datetime.now() - timedelta(days=self.photo_retention_days)`. -/
def is_older_than_retention (pol : RetentionPolicy) (now : Int) (p : Photo) : Bool :=
  decide (p.ts < now - pol.photoRetentionDays)

/-- Source predicate `is_not_among_recent_n`: `(current_total_photos - 1 - i) >= self.min_recent_photos_to_keep`
(index measured from the end of the ascending list). -/
def is_not_among_recent_n (pol : RetentionPolicy) (total i : Nat) : Bool :=
  decide (pol.minRecentPhotosToKeep ≤ total - 1 - i)

/-- Age-phase eligibility of the photo at position `i` of a list of length
`total`: older than the retention window and not among the newest
`min_recent_photos_to_keep` photos. -/
def eligible_for_deletion (pol : RetentionPolicy) (now : Int) (total i : Nat) (p : Photo) : Bool :=
  is_older_than_retention pol now p && is_not_among_recent_n pol total i

/-- The `photos_eligible_for_deletion` list built by the first (age-based)
phase of the retention pass, as (index, photo) pairs of the fetched list. -/
def photos_eligible_for_deletion (pol : RetentionPolicy) (now : Int)
    (user_photos : List Photo) : List (Nat × Photo) :=
  user_photos.enum.filter fun ip => eligible_for_deletion pol now user_photos.length ip.1 ip.2

/-- The photos that survive the age-based phase (every eligible photo is
removed; the others are kept in order). -/
def age_phase_survivors (pol : RetentionPolicy) (now : Int)
    (user_photos : List Photo) : List Photo :=
  (user_photos.enum.filter fun ip =>
    ! eligible_for_deletion pol now user_photos.length ip.1 ip.2).map Prod.snd

/-- Indices (into the fetched ordered list) of the photos kept by the
age-based phase. -/
def age_phase_kept_indices (pol : RetentionPolicy) (now : Int)
    (user_photos : List Photo) : List Nat :=
  (user_photos.enum.filter fun ip =>
    ! eligible_for_deletion pol now user_photos.length ip.1 ip.2).map Prod.fst

/-- Model of `save_recognition_photo_and_manage_retention` of `user_manager.py`:
append the new recognition photo (its timestamp is the current time), delete
every age-eligible photo (decrementing the running count), then, if the
running count still exceeds `max_photos_per_user`, re-fetch the list and
delete the oldest surplus photos from index `0`.  The `range(num_to_trim)`
loop guarded by `i < len(...)` is exactly `List.drop num_to_trim` on the
re-fetched list. -/
def save_recognition_photo_and_manage_retention (pol : RetentionPolicy) (now : Int)
    (photos : List Photo) (newPhoto : Photo) : List Photo :=
  let user_photos := photos ++ [newPhoto]
  let survivors := age_phase_survivors pol now user_photos
  let current_total_photos := survivors.length
  if pol.maxPhotosPerUser < current_total_photos then
    survivors.drop (current_total_photos - pol.maxPhotosPerUser)
  else
    survivors

/-- A sequence of recognition-triggered saves: each call supplies the current
time and the freshly captured photo. -/
def runRetentionCalls (pol : RetentionPolicy) (photos : List Photo)
    (calls : List (Int × Photo)) : List Photo :=
  calls.foldl (fun st c => save_recognition_photo_and_manage_retention pol c.1 st c.2) photos

lemma save_retention_length_le (pol : RetentionPolicy) (now : Int)
    (photos : List Photo) (newPhoto : Photo) :
    (save_recognition_photo_and_manage_retention pol now photos newPhoto).length
      ≤ pol.maxPhotosPerUser := by
  simp only [save_recognition_photo_and_manage_retention]
  split
  · rename_i h
    simp only [List.length_drop]
    omega
  · rename_i h
    omega

lemma runRetentionCalls_length_le (pol : RetentionPolicy)
    (calls : List (Int × Photo)) (st : List Photo)
    (h : st.length ≤ pol.maxPhotosPerUser) :
    (runRetentionCalls pol st calls).length ≤ pol.maxPhotosPerUser := by
  induction calls generalizing st with
  | nil => simpa [runRetentionCalls] using h
  | cons c cs ih =>
      simpa [runRetentionCalls] using
        ih _ (save_retention_length_le pol c.1 st c.2)

/-- C1: for every user state and every nonempty sequence of calls to
`save_recognition_photo_and_manage_retention`, after each call the user's
stored photo count is at most `max_photos_per_user` (quantifying over all
sequences, prefixes included, covers "after each call"). -/
theorem retention_ceiling_invariant (pol : RetentionPolicy) (photos : List Photo)
    (c : Int × Photo) (cs : List (Int × Photo)) :
    (runRetentionCalls pol photos (c :: cs)).length ≤ pol.maxPhotosPerUser := by
  have h1 := save_retention_length_le pol c.1 photos c.2
  have : runRetentionCalls pol photos (c :: cs)
      = runRetentionCalls pol
          (save_recognition_photo_and_manage_retention pol c.1 photos c.2) cs := by
    simp [runRetentionCalls]
  rw [this]
  exact runRetentionCalls_length_le pol cs _ h1

lemma eligible_iff (pol : RetentionPolicy) (now : Int) (total i : Nat) (p : Photo) :
    eligible_for_deletion pol now total i p = true ↔
      (p.ts < now - pol.photoRetentionDays ∧ pol.minRecentPhotosToKeep ≤ total - 1 - i) := by
  simp [eligible_for_deletion, is_older_than_retention, is_not_among_recent_n]

lemma mem_age_phase_kept_indices (pol : RetentionPolicy) (now : Int)
    (photos : List Photo) (i : Nat) (h : i < photos.length) :
    i ∈ age_phase_kept_indices pol now photos ↔
      eligible_for_deletion pol now photos.length i (photos.get ⟨i, h⟩) = false := by
  unfold age_phase_kept_indices
  constructor
  · intro hmem
    obtain ⟨ip, hip, hfst⟩ := List.mem_map.mp hmem
    obtain ⟨hienum, hkeep⟩ := List.mem_filter.mp hip
    have hget : photos[ip.1]? = some ip.2 := List.mem_enum_iff_getElem?.mp hienum
    subst hfst
    have hsnd : ip.2 = photos.get ⟨ip.1, h⟩ := by
      have := List.getElem?_eq_getElem h
      simp only [List.get_eq_getElem]
      rw [this] at hget
      exact (Option.some_injective _ hget).symm
    rw [← hsnd]
    simpa using hkeep
  · intro helig
    apply List.mem_map.mpr
    refine ⟨(i, photos.get ⟨i, h⟩), List.mem_filter.mpr ⟨?_, ?_⟩, rfl⟩
    · apply List.mem_enum_iff_getElem?.mpr
      simp [List.getElem?_eq_getElem h]
    · simpa using helig

/-- C2: in an age-based retention pass over an ordered list of length `N`,
the photo at position `i` is deleted iff it is older than the retention
window and `(N - 1 - i) >= min_recent_photos_to_keep`; in particular the
newest `min_recent_photos_to_keep` photos and every photo not older than the
window survive the phase, whatever the policy parameters. -/
theorem age_phase_characterization (pol : RetentionPolicy) (now : Int)
    (photos : List Photo) (i : Nat) (h : i < photos.length) :
    (i ∉ age_phase_kept_indices pol now photos ↔
      ((photos.get ⟨i, h⟩).ts < now - pol.photoRetentionDays ∧
        pol.minRecentPhotosToKeep ≤ photos.length - 1 - i))
    ∧ (photos.length - 1 - i < pol.minRecentPhotosToKeep →
        i ∈ age_phase_kept_indices pol now photos)
    ∧ (now - pol.photoRetentionDays ≤ (photos.get ⟨i, h⟩).ts →
        i ∈ age_phase_kept_indices pol now photos)
    ∧ (i ∈ age_phase_kept_indices pol now photos →
        photos.get ⟨i, h⟩ ∈ age_phase_survivors pol now photos) := by
  have hmem := mem_age_phase_kept_indices pol now photos i h
  have helig := eligible_iff pol now photos.length i (photos.get ⟨i, h⟩)
  refine ⟨?_, ?_, ?_, ?_⟩
  · rw [hmem]
    constructor
    · intro hne
      exact helig.mp (by simpa using hne)
    · intro hcond hfalse
      rw [hfalse] at helig
      exact absurd (helig.mpr hcond) (by simp)
  · intro hrecent
    apply hmem.mpr
    rcases hb : eligible_for_deletion pol now photos.length i (photos.get ⟨i, h⟩) with _ | _
    · rfl
    · exact absurd ((eligible_iff pol now photos.length i _).mp hb).2 (by omega)
  · intro hyoung
    apply hmem.mpr
    rcases hb : eligible_for_deletion pol now photos.length i (photos.get ⟨i, h⟩) with _ | _
    · rfl
    · exact absurd ((eligible_iff pol now photos.length i _).mp hb).1 (by omega)
  · intro hkept
    have hfalse := hmem.mp hkept
    unfold age_phase_survivors
    apply List.mem_map.mpr
    refine ⟨(i, photos.get ⟨i, h⟩), List.mem_filter.mpr ⟨?_, ?_⟩, rfl⟩
    · apply List.mem_enum_iff_getElem?.mpr
      simp [List.getElem?_eq_getElem h]
    · simpa using hfalse

/-- Concrete instance for `age_phase_characterization`: a photo younger than
the retention window is kept. -/
theorem age_phase_characterization_witness :
    0 ∈ age_phase_kept_indices ⟨100, 90, 50⟩ 1000 [⟨0, 999⟩] :=
  (age_phase_characterization ⟨100, 90, 50⟩ 1000 [⟨0, 999⟩] 0 (by decide)).2.2.1
    (by decide)

/-- The retention-trim scenario policy of the spec:
`max_photos_per_user = 100`, `photo_retention_days = 90`,
`min_recent_photos_to_keep = 50`. -/
def scenarioPolicy : RetentionPolicy := ⟨100, 90, 50⟩

/-- The 60 photos older than 90 days (ages 940 .. 1000 days at `now = 1000`). -/
def scenarioOldPhotos : List Photo := (List.range 60).map fun k => ⟨k, (k : Int)⟩

/-- The 50 photos newer than 90 days (timestamps 950 .. 999 at `now = 1000`). -/
def scenarioRecentPhotos : List Photo :=
  (List.range 50).map fun k => ⟨60 + k, 950 + (k : Int)⟩

/-- The recognition photo added at `now = 1000`. -/
def scenarioNewPhoto : Photo := ⟨110, 1000⟩

/-- C3: with the 100/90/50 policy, a user holding 60 old and 50 recent photos:
one retention call deletes exactly the 60 old photos, leaves the 50 recent
ones plus the new photo (51 photos), and the hard-ceiling phase deletes
nothing (the result equals the age-phase survivor list, of length 51 ≤ 100). -/
theorem retention_trim_scenario :
    save_recognition_photo_and_manage_retention scenarioPolicy 1000
        (scenarioOldPhotos ++ scenarioRecentPhotos) scenarioNewPhoto
      = scenarioRecentPhotos ++ [scenarioNewPhoto]
    ∧ save_recognition_photo_and_manage_retention scenarioPolicy 1000
        (scenarioOldPhotos ++ scenarioRecentPhotos) scenarioNewPhoto
      = age_phase_survivors scenarioPolicy 1000
          ((scenarioOldPhotos ++ scenarioRecentPhotos) ++ [scenarioNewPhoto])
    ∧ (save_recognition_photo_and_manage_retention scenarioPolicy 1000
        (scenarioOldPhotos ++ scenarioRecentPhotos) scenarioNewPhoto).length = 51 := by
  decide

/-- The 100 photos, all younger than 90 days at `now = 1000` (timestamps 910 .. 959,
ascending, some sharing a day). -/
def ceilingScenarioPhotos : List Photo :=
  (List.range 100).map fun k => ⟨k, 910 + ((k : Int) / 2)⟩

/-- The recognition photo added in the ceiling-only scenario. -/
def ceilingScenarioNewPhoto : Photo := ⟨100, 1000⟩

/-- C4: whenever the age-phase survivor count still exceeds
`max_photos_per_user`, the hard-ceiling phase deletes exactly
`(live count - max)` photos, the oldest ones from position `0` of the
re-fetched list; in the ceiling-only scenario (100 young photos plus one new)
the age phase deletes nothing and the ceiling phase deletes exactly the
single oldest photo, returning the count to 100. -/
theorem hard_ceiling_phase :
    (∀ (pol : RetentionPolicy) (now : Int) (photos : List Photo) (newPhoto : Photo),
      pol.maxPhotosPerUser < (age_phase_survivors pol now (photos ++ [newPhoto])).length →
        save_recognition_photo_and_manage_retention pol now photos newPhoto
          = (age_phase_survivors pol now (photos ++ [newPhoto])).drop
              ((age_phase_survivors pol now (photos ++ [newPhoto])).length
                - pol.maxPhotosPerUser)
        ∧ (save_recognition_photo_and_manage_retention pol now photos newPhoto).length
            = pol.maxPhotosPerUser)
    ∧ age_phase_survivors scenarioPolicy 1000
          (ceilingScenarioPhotos ++ [ceilingScenarioNewPhoto])
        = ceilingScenarioPhotos ++ [ceilingScenarioNewPhoto]
    ∧ save_recognition_photo_and_manage_retention scenarioPolicy 1000
          ceilingScenarioPhotos ceilingScenarioNewPhoto
        = ceilingScenarioPhotos.drop 1 ++ [ceilingScenarioNewPhoto]
    ∧ (save_recognition_photo_and_manage_retention scenarioPolicy 1000
          ceilingScenarioPhotos ceilingScenarioNewPhoto).length = 100 := by
  refine ⟨?_, by decide, by decide, by decide⟩
  intro pol now photos newPhoto hover
  constructor
  · simp only [save_recognition_photo_and_manage_retention, if_pos hover]
  · simp only [save_recognition_photo_and_manage_retention, if_pos hover,
      List.length_drop]
    omega

/-- Concrete instance for `hard_ceiling_phase`: with `max_photos_per_user = 0`
every photo the age phase keeps is trimmed by the ceiling phase. -/
theorem hard_ceiling_phase_witness :
    (save_recognition_photo_and_manage_retention ⟨0, 90, 50⟩ 0 [] ⟨0, 0⟩).length = 0 :=
  (hard_ceiling_phase.1 ⟨0, 90, 50⟩ 0 [] ⟨0, 0⟩ (by decide)).2

/-! Registration controller (`desbloqueo.py`).  The module constants: -/

def MAX_INITIAL_PHOTOS : Nat := 50
def ADDITIONAL_PHOTOS_STEP : Nat := 5
def MAX_PHOTOS_PER_USER : Nat := 100

/-- Outcome of a `start_registration` call: either skip capture and train
immediately, or start a capture session toward the given session target. -/
inductive RegAction where
  | trainOnly
  | capture (target : Nat)
deriving DecidableEq, Repr

/-- The `existing_photos_count > 0` branch of `start_registration`: the
operator is asked whether to continue; on yes the session target is
`min(existing + ADDITIONAL_PHOTOS_STEP, MAX_PHOTOS_PER_USER)`, and if that
target does not exceed the existing count capture is skipped and training
starts; on no, training starts directly. -/
def start_registration_existing (existing_photos_count : Nat) (confirm : Bool) : RegAction :=
  if confirm then
    let target := min (existing_photos_count + ADDITIONAL_PHOTOS_STEP) MAX_PHOTOS_PER_USER
    if target ≤ existing_photos_count then RegAction.trainOnly
    else RegAction.capture target
  else RegAction.trainOnly

/-- The `registration_active` continuation branch of `start_registration`
(called again after a completed batch with the updated count): same target
computation and skip-or-capture decision, without a confirmation prompt. -/
def start_registration_continue (current_photos_count : Nat) : RegAction :=
  let target := min (current_photos_count + ADDITIONAL_PHOTOS_STEP) MAX_PHOTOS_PER_USER
  if target ≤ current_photos_count then RegAction.trainOnly
  else RegAction.capture target

/-- The `existing_photos_count == 0` branch of `start_registration`:
`create_user` is called only when the identity directory does not exist, and
the session target is always `MAX_INITIAL_PHOTOS`.  Returns
(directory created, session target). -/
def start_registration_zero_photos (dirExists : Bool) : Bool × Nat :=
  (!dirExists, MAX_INITIAL_PHOTOS)

/-- C5: for an existing user with photos who confirms, the session target is
`min(existing + ADDITIONAL_PHOTOS_STEP, MAX_PHOTOS_PER_USER)`; if that target
does not exceed the existing count no capture starts (training is triggered
immediately); whenever capture starts, in either branch, the target strictly
exceeds the current count. -/
theorem session_target_monotonicity (existing : Nat) :
    (∀ t, start_registration_existing existing true = RegAction.capture t →
        t = min (existing + ADDITIONAL_PHOTOS_STEP) MAX_PHOTOS_PER_USER ∧ existing < t)
    ∧ (min (existing + ADDITIONAL_PHOTOS_STEP) MAX_PHOTOS_PER_USER ≤ existing →
        start_registration_existing existing true = RegAction.trainOnly)
    ∧ (∀ t, start_registration_continue existing = RegAction.capture t → existing < t) := by
  refine ⟨?_, ?_, ?_⟩
  · intro t ht
    simp only [start_registration_existing, if_true] at ht
    split at ht
    · exact absurd ht (by simp)
    · rename_i hlt
      cases ht
      exact ⟨rfl, by omega⟩
  · intro hle
    simp only [start_registration_existing, if_true, if_pos hle]
  · intro t ht
    simp only [start_registration_continue] at ht
    split at ht
    · exact absurd ht (by simp)
    · rename_i hlt
      cases ht
      omega

/-- Concrete instance for `session_target_monotonicity`: at the 100-photo
ceiling the target `min(105, 100) = 100` does not exceed the count, so the
call goes straight to training. -/
theorem session_target_monotonicity_witness :
    start_registration_existing 100 true = RegAction.trainOnly :=
  (session_target_monotonicity 100).2.1 (by decide)

/-- State seen by `process_registration_frame`: whether registration is
active, whether the camera is running, and the user's current photo count. -/
structure RegFrameState where
  registrationActive : Bool
  cameraOn : Bool
  photoCount : Nat
deriving DecidableEq, Repr

/-- Observable effects of one `process_registration_frame` call. -/
structure RegFrameEvents where
  photoAdded : Bool
  trainingTriggered : Bool
deriving DecidableEq, Repr

/-- Model of `process_registration_frame` of `desbloqueo.py`: ignore the frame when
registration is inactive; add a photo only when exactly one face is detected
and the count is below the session target; when the count reaches the target,
stop the camera, clear the registration flag and either train (initial-batch
completion, global ceiling, or operator declining more photos) or let the
operator continue with another batch. -/
def process_registration_frame (st : RegFrameState) (facesDetected : Nat)
    (target : Nat) (confirmMore : Bool) : RegFrameState × RegFrameEvents :=
  if st.registrationActive = false then (st, ⟨false, false⟩)
  else
    let takes := facesDetected == 1 && decide (st.photoCount < target)
    let count1 := if takes then st.photoCount + 1 else st.photoCount
    if target ≤ count1 then
      let stopped : RegFrameState :=
        { registrationActive := false, cameraOn := false, photoCount := count1 }
      if target = MAX_INITIAL_PHOTOS ∧ MAX_INITIAL_PHOTOS ≤ count1 then
        (stopped, ⟨takes, true⟩)
      else if MAX_PHOTOS_PER_USER ≤ count1 then
        (stopped, ⟨takes, true⟩)
      else if confirmMore then
        (stopped, ⟨takes, false⟩)
      else
        (stopped, ⟨takes, true⟩)
    else
      ({ st with photoCount := count1 }, ⟨takes, false⟩)

lemma prf_inactive (st : RegFrameState) (faces target : Nat) (cm : Bool)
    (h : st.registrationActive = false) :
    process_registration_frame st faces target cm = (st, ⟨false, false⟩) := by
  simp [process_registration_frame, h]

lemma prf_photoAdded (st : RegFrameState) (faces target : Nat) (cm : Bool) :
    (process_registration_frame st faces target cm).2.photoAdded
      = (st.registrationActive && (faces == 1) && decide (st.photoCount < target)) := by
  by_cases hact : st.registrationActive = false
  · rw [prf_inactive st faces target cm hact, hact]
    simp
  · simp only [Bool.not_eq_false] at hact
    simp only [process_registration_frame, hact, Bool.true_and]
    rw [if_neg (by simp)]
    split <;> (try split) <;> (try split) <;> (try split) <;> (try split) <;> simp_all

/-- C6: for a fresh user the identity directory is created only if absent and
the session target is `MAX_INITIAL_PHOTOS = 50`; a frame adds a photo iff
registration is active, exactly one face is detected and the count is below
the target; and once the count reaches the 50-photo initial target the camera
is stopped, the registration flag cleared and training triggered. -/
theorem fresh_user_registration :
    (∀ dirExists, start_registration_zero_photos dirExists = (!dirExists, 50))
    ∧ (∀ st faces target confirmMore,
        ((process_registration_frame st faces target confirmMore).2.photoAdded = true ↔
          st.registrationActive = true ∧ faces = 1 ∧ st.photoCount < target))
    ∧ (∀ st faces confirmMore,
        st.registrationActive = true →
        MAX_INITIAL_PHOTOS ≤
            (process_registration_frame st faces MAX_INITIAL_PHOTOS confirmMore).1.photoCount →
          (process_registration_frame st faces MAX_INITIAL_PHOTOS confirmMore).1.registrationActive
              = false
          ∧ (process_registration_frame st faces MAX_INITIAL_PHOTOS confirmMore).1.cameraOn = false
          ∧ (process_registration_frame st faces MAX_INITIAL_PHOTOS confirmMore).2.trainingTriggered
              = true) := by
  refine ⟨fun dirExists => rfl, ?_, ?_⟩
  · intro st faces target confirmMore
    rw [prf_photoAdded]
    constructor
    · intro h
      simp only [Bool.and_eq_true, beq_iff_eq, decide_eq_true_eq] at h
      exact ⟨h.1.1, h.1.2, h.2⟩
    · rintro ⟨h1, h2, h3⟩
      simp [h1, h2, h3]
  · intro st faces confirmMore hactive
    simp only [process_registration_frame, hactive]
    rw [if_neg (by simp)]
    split <;> split <;> rename_i htakes hcond
    all_goals
      first
        | (rw [if_pos (by exact ⟨by trivial, hcond⟩)]
           exact fun _ => ⟨rfl, rfl, rfl⟩)
        | (intro hreach
           exact absurd hreach hcond)

/-- Concrete instance for `fresh_user_registration`: one single-face frame at
49 photos completes the 50-photo initial session, stopping the camera and
triggering training. -/
theorem fresh_user_registration_witness :
    (process_registration_frame ⟨true, true, 49⟩ 1 MAX_INITIAL_PHOTOS false).1.registrationActive
        = false
    ∧ (process_registration_frame ⟨true, true, 49⟩ 1 MAX_INITIAL_PHOTOS false).1.cameraOn = false
    ∧ (process_registration_frame ⟨true, true, 49⟩ 1 MAX_INITIAL_PHOTOS false).2.trainingTriggered
        = true :=
  fresh_user_registration.2.2 ⟨true, true, 49⟩ 1 false rfl (by decide)

/-! Recognizer (`face_recognizer.py`).  The EigenFaces predictor itself is a
black box: `recognize_face` receives its output `(label, confidence)` as a
parameter.  Distance scores are modelled as rationals. -/

/-- Model of `recognize_face` of `face_recognizer.py`: with no known users or no model
file it answers `(None, 0.0)` without consulting the predictor; otherwise a
user name is returned exactly when the distance is strictly below the
threshold (lower is better) and the predicted label indexes the sorted
known-user list; otherwise `(None, distance)`. -/
def recognize_face (user_list : List String) (modelExists : Bool)
    (confidence_threshold : ℚ) (prediction : Nat × ℚ) : Option String × ℚ :=
  if user_list.isEmpty || !modelExists then (none, 0)
  else
    let label := prediction.1
    let confidence := prediction.2
    if h : confidence < confidence_threshold ∧ label < user_list.length then
      (some (user_list.get ⟨label, h.2⟩), confidence)
    else
      (none, confidence)

/-- C7 counterexample: with one known user, a loaded model, threshold `2000`
and a predicted `(label, score) = (1, 0)`, the score is strictly below the
threshold yet no identity is returned — the claimed "match iff
score < threshold" fails when the label is out of range. -/
theorem recognize_face_threshold_counterexample :
    (recognize_face ["a"] true 2000 (1, 0)).1 = none ∧ ((0 : ℚ) < 2000) := by
  constructor
  · decide
  · norm_num

/-- C7 (amended): with a nonempty known-user list and the model present,
`recognize_face` returns a user name iff the distance score is strictly below
the threshold AND the predicted label is a valid index into the known-user
list; in every other case it returns no identity together with the score. -/
theorem recognize_face_threshold_semantics (user_list : List String)
    (confidence_threshold : ℚ) (prediction : Nat × ℚ)
    (hne : user_list ≠ []) :
    ((recognize_face user_list true confidence_threshold prediction).1.isSome = true ↔
      (prediction.2 < confidence_threshold ∧ prediction.1 < user_list.length))
    ∧ (¬ (prediction.2 < confidence_threshold ∧ prediction.1 < user_list.length) →
        recognize_face user_list true confidence_threshold prediction
          = (none, prediction.2)) := by
  have hemp : user_list.isEmpty = false := by
    simpa [List.isEmpty_iff] using hne
  constructor
  · simp only [recognize_face, hemp, Bool.not_true, Bool.or_self, Bool.false_eq_true,
      if_false]
    split
    · rename_i hcond
      simpa using hcond
    · rename_i hcond
      simpa using hcond
  · intro hfail
    simp only [recognize_face, hemp, Bool.not_true, Bool.or_self, Bool.false_eq_true,
      if_false]
    rw [dif_neg hfail]

/-- Concrete instance for `recognize_face_threshold_semantics`: a score below
the threshold with an in-range label is a match. -/
theorem recognize_face_threshold_semantics_witness :
    (recognize_face ["a"] true 2000 (0, 100)).1.isSome = true :=
  (recognize_face_threshold_semantics ["a"] 2000 (0, 100) (by decide)).1.mpr
    (by constructor <;> norm_num)

/-- C10: `recognize_face` short-circuits to `(None, 0.0)` when the known-user
list is empty or the model file is absent — for every predictor output, so no
prediction is consulted — and returns no identity whenever the predicted
label is out of range of the known-user list, even with a passing score. -/
theorem recognize_face_guards (user_list : List String) (modelExists : Bool)
    (confidence_threshold : ℚ) (prediction : Nat × ℚ) :
    (user_list = [] →
      recognize_face user_list modelExists confidence_threshold prediction = (none, 0))
    ∧ (modelExists = false →
      recognize_face user_list modelExists confidence_threshold prediction = (none, 0))
    ∧ (user_list.length ≤ prediction.1 →
      (recognize_face user_list modelExists confidence_threshold prediction).1 = none) := by
  refine ⟨?_, ?_, ?_⟩
  · intro h
    subst h
    simp [recognize_face]
  · intro h
    subst h
    simp [recognize_face]
  · intro hout
    simp only [recognize_face]
    split
    · rfl
    · rw [dif_neg (by omega)]

/-- Concrete instance for `recognize_face_guards`: empty user list. -/
theorem recognize_face_guards_witness :
    recognize_face [] true 2000 (0, 0) = (none, 0) :=
  (recognize_face_guards [] true 2000 (0, 0)).1 rfl

/-! Trainer (`face_trainer.py`).  Images are opaque payloads (an arbitrary
type `α`); `train_test_split` and the trained predictor are black boxes passed
as parameters.  Writing `modeloEigenFaces.xml` is recorded in the result. -/

/-- Model of `load_training_data`: walk the sorted user directories, pairing every
image with its user's label id; the label id advances once per user, images
or not. -/
def load_training_data {α : Type} (users : List (String × List α)) : List (α × Nat) :=
  (users.enum.map fun iu => iu.2.2.map fun img => (img, iu.1)).flatten

/-- Result of a successful `train()` run. -/
structure TrainResult where
  accuracy : ℚ
  modelSaved : Bool
deriving Repr

/-- Model of `train` of `face_trainer.py`: raise when no training images exist
(nothing written); otherwise split the data, count the test predictions whose
label matches, report `correct / total` (`0.0` when the test set is empty)
and save the model. -/
def train {α : Type} (users : List (String × List α))
    (split : List (α × Nat) → List (α × Nat) × List (α × Nat))
    (predict : α → Nat × ℚ) : Except String TrainResult :=
  let faces_data := load_training_data users
  if faces_data.isEmpty then
    Except.error "No se encontraron imágenes para entrenar."
  else
    let test_set := (split faces_data).2
    let total := test_set.length
    let correct := (test_set.filter fun s => (predict s.1).1 == s.2).length
    let accuracy : ℚ := if 0 < total then (correct : ℚ) / (total : ℚ) else 0
    Except.ok { accuracy := accuracy, modelSaved := true }

/-- C9: with zero training images across all users, `train` raises (returns
the error, so no model artifact is written); with at least one image it saves
the model and reports an accuracy in the closed interval `[0, 1]`. -/
theorem train_contract {α : Type} (users : List (String × List α))
    (split : List (α × Nat) → List (α × Nat) × List (α × Nat))
    (predict : α → Nat × ℚ) :
    (load_training_data users = [] →
      train users split predict
        = Except.error "No se encontraron imágenes para entrenar.")
    ∧ (load_training_data users ≠ [] →
      ∃ r, train users split predict = Except.ok r
        ∧ 0 ≤ r.accuracy ∧ r.accuracy ≤ 1 ∧ r.modelSaved = true) := by
  constructor
  · intro h
    simp [train, h]
  · intro h
    have hne : (load_training_data users).isEmpty = false := by
      simpa [List.isEmpty_iff] using h
    simp only [train, hne, Bool.false_eq_true, if_false]
    refine ⟨_, rfl, ?_, ?_, rfl⟩
    · dsimp only
      split
      · rename_i hpos
        positivity
      · norm_num
    · dsimp only
      split
      · rename_i hpos
        rw [div_le_one (by exact_mod_cast hpos)]
        exact_mod_cast List.length_filter_le _ _
      · norm_num

/-- Concrete instance for `train_contract`: one user with one image trains to
accuracy `1` under an identity split and a constant predictor. -/
theorem train_contract_witness :
    ∃ r, train [("alice", [0])] (fun d => (d, d)) (fun _ => (0, 0)) = Except.ok r
      ∧ 0 ≤ r.accuracy ∧ r.accuracy ≤ 1 ∧ r.modelSaved = true :=
  (train_contract [("alice", [(0 : Nat)])] (fun d => (d, d)) (fun _ => (0, 0))).2
    (by decide)

/-! Recognition controller (`_process_recognition_frame`, `stop_recognition`
of `desbloqueo.py`).  A frame arrives with the recognizer's output
(`process_frame`'s recognized users), the single-face re-detection outcome,
the current time and the captured region. -/

/-- Per-user photo store: `usuarios/<name>/` directories. -/
def user_photo_list (store : List (String × List Photo)) (username : String) : List Photo :=
  match store.find? fun e => e.1 == username with
  | some e => e.2
  | none => []

/-- Replace (or create) a user's photo list in the store. -/
def store_update (store : List (String × List Photo)) (username : String)
    (photos : List Photo) : List (String × List Photo) :=
  if (store.find? fun e => e.1 == username).isSome then
    store.map fun e => if e.1 == username then (username, photos) else e
  else
    store ++ [(username, photos)]

/-- Application state seen by the recognition callback. -/
structure RecogAppState where
  recognitionActive : Bool
  cameraOn : Bool
  status : String
  welcome : String
  store : List (String × List Photo)
deriving DecidableEq, Repr

/-- One incoming camera frame, with the black-box recognizer outputs. -/
structure RecogFrame where
  recognizedUsers : List (String × ℚ)
  facesDetected : Nat
  now : Int
  newPhoto : Photo
deriving Repr

/-- Observable side effects of one `_process_recognition_frame` call:
how many unlock attempts were spawned, and whether retraining started. -/
structure RecogEvents where
  unlockAttempts : Nat
  trainingTriggered : Bool
deriving DecidableEq, Repr

/-- Model of `stop_recognition` of `desbloqueo.py`: if active, clear the flag, stop
the camera and update the status; otherwise do nothing. -/
def stop_recognition (st : RecogAppState) : RecogAppState :=
  if st.recognitionActive then
    { st with
        recognitionActive := false
        cameraOn := false
        status := "Reconocimiento facial detenido." }
  else st

/-- Model of `_process_recognition_frame` of `desbloqueo.py`: return untouched when
recognition is inactive or the window is gone; with no recognized user just
refresh status and clear the greeting; on the first recognized user update
status, save a retention-managed photo (and retrain) when the user is under
`MAX_PHOTOS_PER_USER` and re-detection finds exactly one face, greet, spawn
one unlock attempt and call `stop_recognition`. -/
def process_recognition_frame (pol : RetentionPolicy) (st : RecogAppState)
    (guiAlive : Bool) (f : RecogFrame) : RecogAppState × RecogEvents :=
  if st.recognitionActive = false then (st, ⟨0, false⟩)
  else if guiAlive = false then (st, ⟨0, false⟩)
  else
    match f.recognizedUsers with
    | [] => ({ st with status := "Buscando rostro...", welcome := "" }, ⟨0, false⟩)
    | (username, _confidence) :: _ =>
        let st1 := { st with status := "Rostro de " ++ username ++ " reconocido." }
        let saves := decide ((user_photo_list st1.store username).length < MAX_PHOTOS_PER_USER)
          && (f.facesDetected == 1)
        let st2 := if saves then
            { st1 with
                store := store_update st1.store username
                  (save_recognition_photo_and_manage_retention pol f.now
                    (user_photo_list st1.store username) f.newPhoto)
                status := "Foto de reconocimiento guardada y gestión de retención aplicada." }
          else st1
        let st3 := { st2 with welcome := "Bienvenido " ++ username ++ "!" }
        (stop_recognition st3, ⟨1, saves⟩)

/-- A whole activation: fold the callback over the delivered frames (each
paired with whether the window still exists), counting unlock attempts. -/
def run_recognition_frames (pol : RetentionPolicy) (st : RecogAppState) :
    List (Bool × RecogFrame) → RecogAppState × Nat
  | [] => (st, 0)
  | gf :: rest =>
      let step := process_recognition_frame pol st gf.1 gf.2
      let tail := run_recognition_frames pol step.1 rest
      (tail.1, step.2.unlockAttempts + tail.2)

lemma prcf_inactive (pol : RetentionPolicy) (st : RecogAppState)
    (guiAlive : Bool) (f : RecogFrame) (h : st.recognitionActive = false) :
    process_recognition_frame pol st guiAlive f = (st, ⟨0, false⟩) := by
  simp [process_recognition_frame, h]

lemma run_frames_inactive (pol : RetentionPolicy) (st : RecogAppState)
    (frames : List (Bool × RecogFrame)) (h : st.recognitionActive = false) :
    run_recognition_frames pol st frames = (st, 0) := by
  induction frames with
  | nil => rfl
  | cons gf rest ih =>
      simp [run_recognition_frames, prcf_inactive pol st gf.1 gf.2 h, ih]

lemma prcf_match (pol : RetentionPolicy) (st : RecogAppState) (f : RecogFrame)
    (u : String) (c : ℚ) (rest : List (String × ℚ))
    (hact : st.recognitionActive = true) (hf : f.recognizedUsers = (u, c) :: rest) :
    (process_recognition_frame pol st true f).2.unlockAttempts = 1
    ∧ (process_recognition_frame pol st true f).1.recognitionActive = false := by
  simp only [process_recognition_frame, hact]
  rw [if_neg (by simp), if_neg (by simp), hf]
  refine ⟨rfl, ?_⟩
  by_cases hsaves :
      (decide ((user_photo_list st.store u).length < MAX_PHOTOS_PER_USER)
        && (f.facesDetected == 1)) = true
  · simp [stop_recognition, hsaves]
  · simp [stop_recognition, hsaves]

lemma prcf_step (pol : RetentionPolicy) (st : RecogAppState)
    (guiAlive : Bool) (f : RecogFrame) :
    (process_recognition_frame pol st guiAlive f).2.unlockAttempts = 0
    ∨ ((process_recognition_frame pol st guiAlive f).2.unlockAttempts = 1
        ∧ (process_recognition_frame pol st guiAlive f).1.recognitionActive = false) := by
  by_cases hact : st.recognitionActive = false
  · rw [prcf_inactive pol st guiAlive f hact]
    exact Or.inl rfl
  · simp only [Bool.not_eq_false] at hact
    by_cases hgui : guiAlive = false
    · left
      simp [process_recognition_frame, hact, hgui]
    · simp only [Bool.not_eq_false] at hgui
      subst hgui
      rcases hf : f.recognizedUsers with _ | ⟨⟨u, c⟩, rest⟩
      · left
        simp [process_recognition_frame, hact, hf]
      · exact Or.inr (prcf_match pol st f u c rest hact hf)

lemma run_frames_le_one (pol : RetentionPolicy) (frames : List (Bool × RecogFrame))
    (st : RecogAppState) :
    (run_recognition_frames pol st frames).2 ≤ 1 := by
  induction frames generalizing st with
  | nil => simp [run_recognition_frames]
  | cons gf rest ih =>
      simp only [run_recognition_frames]
      rcases prcf_step pol st gf.1 gf.2 with h0 | ⟨h1, hinact⟩
      · rw [h0]
        simpa using ih (process_recognition_frame pol st gf.1 gf.2).1
      · rw [h1, run_frames_inactive pol _ rest hinact]
        simp

/-- C8: a frame delivered while the recognition flag is false changes nothing
(no photo stored, no unlock attempt, no status update); an active frame whose
recognizer output names a user spawns exactly one unlock attempt and
immediately clears the flag; consequently a whole activation performs at most
one unlock attempt, whatever frames arrive. -/
theorem recognition_single_unlock :
    (∀ (pol : RetentionPolicy) (st : RecogAppState) (guiAlive : Bool) (f : RecogFrame),
      st.recognitionActive = false →
        process_recognition_frame pol st guiAlive f = (st, ⟨0, false⟩))
    ∧ (∀ (pol : RetentionPolicy) (st : RecogAppState) (f : RecogFrame)
        (u : String) (c : ℚ) (rest : List (String × ℚ)),
      st.recognitionActive = true → f.recognizedUsers = (u, c) :: rest →
        (process_recognition_frame pol st true f).2.unlockAttempts = 1
        ∧ (process_recognition_frame pol st true f).1.recognitionActive = false)
    ∧ (∀ (pol : RetentionPolicy) (st : RecogAppState)
        (frames : List (Bool × RecogFrame)),
      (run_recognition_frames pol st frames).2 ≤ 1) :=
  ⟨fun pol st guiAlive f h => prcf_inactive pol st guiAlive f h,
   fun pol st f u c rest hact hf => prcf_match pol st f u c rest hact hf,
   fun pol st frames => run_frames_le_one pol frames st⟩

/-- Concrete instance for `recognition_single_unlock`: an inactive state
ignores a frame that recognizes a user. -/
theorem recognition_single_unlock_witness :
    process_recognition_frame ⟨100, 90, 50⟩
        ⟨false, false, "", "", []⟩ true ⟨[("alice", 100)], 1, 1000, ⟨0, 1000⟩⟩
      = (⟨false, false, "", "", []⟩, ⟨0, false⟩) :=
  recognition_single_unlock.1 ⟨100, 90, 50⟩ ⟨false, false, "", "", []⟩ true
    ⟨[("alice", 100)], 1, 1000, ⟨0, 1000⟩⟩ rfl

end Desbloqueo
